import Mathlib

/-!
Shallow embedding of the download-queue orchestration core of
`video_downloader_qt.py` (classes `ResolutionWorker`, `DownloadRunnable`,
`VideoDownloaderUI`), together with theorems settling the specification
claims about it.  Python strings are Lean `String`s, Python lists are Lean
`List`s, byte counts are `Nat`, progress percentages are `ℚ`.  The external
regular-expression engine (`re.match`) is passed in as an abstract boolean
function, since it is library code outside the repository; everything else
is translated directly from the source.
-/

namespace VideoDloader

/-! ## String helpers (models of the Python `str` operations used) -/

/-- Model of Python `str.lower` restricted to the character ranges that occur
in the program's strings: ASCII `A`-`Z` and Cyrillic `А`-`Я` and `Ё`. -/
def lowerChar (c : Char) : Char :=
  if 'A' ≤ c ∧ c ≤ 'Z' then Char.ofNat (c.toNat + 32)
  else if 'А' ≤ c ∧ c ≤ 'Я' then Char.ofNat (c.toNat + 32)
  else if c = 'Ё' then 'ё'
  else c

/-- Lowercase every character of a string (model of `str.lower`). -/
def lowerStr (s : String) : String := ⟨s.data.map lowerChar⟩

/-- Check that the first list starts the second one. -/
def leadMatch : List Char → List Char → Bool
  | [], _ => true
  | _ :: _, [] => false
  | a :: as, b :: bs => a = b && leadMatch as bs

/-- Check that `needle` occurs contiguously inside the second list. -/
def hasSub (needle : List Char) : List Char → Bool
  | [] => needle.isEmpty
  | b :: bs => leadMatch needle (b :: bs) || hasSub needle bs

/-- Model of Python `needle in hay` on strings. -/
def containsStr (hay needle : String) : Bool := hasSub needle.data hay.data

/-- Model of Python `s.startswith(p)`. -/
def startsWithStr (s p : String) : Bool := leadMatch p.data s.data

/-- ASCII whitespace, the `str.strip` default set restricted to the ASCII
characters relevant here. -/
def isWs (c : Char) : Bool :=
  c = ' ' || c = '\t' || c = '\n' || c = '\x0d' || c = '\x0b' || c = '\x0c'

/-- Model of Python `str.strip()` (ASCII whitespace). -/
def stripStr (s : String) : String :=
  ⟨(((s.data.dropWhile isWs).reverse.dropWhile isWs).reverse)⟩

/-! ## UrlClassifier: `URL_PATTERNS` and `VideoDownloaderUI.is_valid_video_url`
(source lines 66-87 and 850-872) -/

/-- The global `URL_PATTERNS` dict of the source, as an insertion-ordered
association list from service name to its regular-expression patterns. -/
def URL_PATTERNS : List (String × List String) :=
  [ ("YouTube",
      [ "^https?://(?:www\\.)?youtube\\.com/watch\\?v=[\\w-]{11}(?:&\\S*)?$"
      , "^https?://youtu\\.be/[\\w-]{11}(?:\\?\\S*)?$"
      , "^https?://(?:www\\.)?youtube\\.com/shorts/[\\w-]{11}(?:\\?\\S*)?$"
      , "^https?://(?:www\\.)?youtube\\.com/embed/[\\w-]{11}(?:\\?\\S*)?$" ])
  , ("VK",
      [ "^https?://(?:www\\.)?vk\\.com/video-?\\d+_\\d+(?:\\?\\S*)?$"
      , "^https?://(?:www\\.)?vkvideo\\.ru/video-?\\d+_\\d+(?:\\?\\S*)?$" ])
  , ("RuTube",
      [ "^https?://(?:www\\.)?rutube\\.ru/video/[\\w-]{32}/?(?:\\?\\S*)?$"
      , "^https?://(?:www\\.)?rutube\\.ru/play/embed/[\\w-]{32}/?(?:\\?\\S*)?$" ])
  , ("Одноклассники",
      [ "^https?://(?:www\\.)?ok\\.ru/video/\\d+(?:\\?\\S*)?$" ])
  , ("Mail.ru",
      [ "^https?://(?:www\\.)?my\\.mail\\.ru/(?:[\\w/]+/)?video/(?:[\\w/]+/)\\d+\\.html(?:\\?\\S*)?$" ]) ]

/-- Python `url.startswith(('http://', 'https://'))`. -/
def schemeOk (url : String) : Bool :=
  startsWithStr url "http://" || startsWithStr url "https://"

/-- The service-name containment test of the malformed-URL fallback:
`service_name.lower() in url.lower()`. -/
def serviceContains (url name : String) : Bool :=
  containsStr (lowerStr url) (lowerStr name)

/-- Error message for an empty URL (source line 856). -/
def emptyUrlMsg : String := "URL не может быть пустым"

/-- Error message for a URL without an `http(s)` scheme (source line 859). -/
def badSchemeMsg : String := "URL должен начинаться с http:// или https://"

/-- Error message when the URL contains a service name but matches none of
that table's patterns (source line 870). -/
def malformedMsg (service : String) : String :=
  "Неверный формат URL для " ++ service ++ ". Проверьте правильность ссылки."

/-- Error message for an unsupported service (source line 872). -/
def unsupportedMsg : String := "Неподдерживаемый видеосервис или неверный формат URL"

/-- Model of `VideoDownloaderUI.is_valid_video_url` (source lines 850-872).  The
regular-expression engine `re.match` is abstracted as the boolean function
`matchb pattern url`; the branch structure is translated directly. -/
def is_valid_video_url (matchb : String → String → Bool) (url : String) :
    Bool × String :=
  if url = "" then (false, emptyUrlMsg)
  else if ¬(schemeOk url = true) then (false, badSchemeMsg)
  else if URL_PATTERNS.any (fun sp => sp.2.any (fun p => matchb p url)) then
    (true, "")
  else
    match URL_PATTERNS.find? (fun sp => serviceContains url sp.1) with
    | some sp => (false, malformedMsg sp.1)
    | none => (false, unsupportedMsg)

/-! ## JobExecutor: `DownloadRunnable` (source lines 121-250)

The media retrieval engine is modelled as a script: the list of payloads with
which it invokes the registered `progress_hook`, after which the engine call
returns normally.  The cancellation flag (`threading.Event`) is write-once;
it is modelled by the tick index `cancelAt` from which the flag is observed
set.  An exception raised inside `progress_hook` propagates out of the engine
call into `DownloadRunnable.run`'s handler. -/

/-- One payload dict `d` passed to `progress_hook`.  A missing
`downloaded_bytes`, `total_bytes` or `total_bytes_estimate` key reads as `0`
(Python `d.get(k, 0)`), a missing `status` or `filename` reads as `""`. -/
structure HookData where
  status : String
  downloaded_bytes : Nat
  total_bytes : Nat
  total_bytes_estimate : Nat
  filename : String
  deriving DecidableEq, Repr

/-- The kind of a `signals.progress` emission; the accompanying status texts
("Загрузка: ..%", "Загрузка...", "Обработка файла...") are presentation only
and carried by the kind. -/
inductive PKind where
  | downloading
  | indeterminate
  | postprocess
  deriving DecidableEq, Repr

/-- One `signals.progress.emit` call: its kind and its percent argument. -/
structure ProgSig where
  kind : PKind
  percent : ℚ
  deriving DecidableEq, Repr

/-- The message of the exception raised by `progress_hook` when the
cancellation flag is set (source line 230). -/
def cancelExcMsg : String := "Загрузка отменена пользователем"

/-- Python `os.path.basename` (POSIX separator), applied to the finished
filename at source line 245. -/
def basenameStr (s : String) : String :=
  ⟨(s.data.reverse.takeWhile (fun c => ¬(c = '/'))).reverse⟩

/-- The effective total used at source line 235:
`d.get('total_bytes', 0) or d.get('total_bytes_estimate', 0)`. -/
def effTotal (d : HookData) : Nat :=
  if d.total_bytes ≠ 0 then d.total_bytes else d.total_bytes_estimate

/-- Model of `DownloadRunnable.progress_hook` (source lines 228-246): given the value
of the cancellation flag and the currently recorded `downloaded_filename`,
either raises (`Except.error`) or returns the new recorded filename together
with the progress signals emitted during this call. -/
def progress_hook (cancelled : Bool) (fname : Option String) (d : HookData) :
    Except String (Option String × List ProgSig) :=
  if cancelled then .error cancelExcMsg
  else if d.status = "downloading" then
    if effTotal d ≠ 0 then
      .ok (fname, [⟨.downloading, (d.downloaded_bytes : ℚ) / (effTotal d : ℚ) * 100⟩])
    else
      .ok (fname, [⟨.indeterminate, -1⟩])
  else if d.status = "finished" then
    .ok (some (basenameStr d.filename), [⟨.postprocess, 100⟩])
  else
    .ok (fname, [])

/-- Drives `progress_hook` over the engine's script of payloads, starting at
tick `i` with recorded filename `fname`.  Returns the final recorded
filename, the progress signals emitted so far, and the message of the
exception that aborted the engine call, if any. -/
def runHooks (cancelAt : Option Nat) :
    Nat → Option String → List HookData →
    Option String × List ProgSig × Option String
  | _, fname, [] => (fname, [], none)
  | i, fname, d :: ds =>
    let cancelled := match cancelAt with
      | some k => decide (k ≤ i)
      | none => false
    match progress_hook cancelled fname d with
    | .error e => (fname, [], some e)
    | .ok (fname2, evs) =>
      let r := runHooks cancelAt (i + 1) fname2 ds
      (r.1, evs ++ r.2.1, r.2.2)

/-- Model of `DownloadRunnable.get_user_friendly_error_message` (source lines 158-171). -/
def get_user_friendly_error_message (error : String) : String :=
  if containsStr error "HTTP Error 404" then
    "Ошибка: Видео не найдено (404). Возможно, оно было удалено или является приватным."
  else if containsStr error "HTTP Error 403" then
    "Ошибка: Доступ запрещен (403). Видео может быть недоступно в вашем регионе."
  else if containsStr error "Sign in to confirm your age" || containsStr error "age-restricted" then
    "Ошибка: Видео имеет возрастные ограничения и требует авторизации."
  else if containsStr error "SSL" || containsStr (lowerStr error) "подключени"
      || containsStr (lowerStr error) "connect" then
    "Ошибка подключения. Проверьте соединение с интернетом или попробуйте позже."
  else if containsStr (lowerStr error) "copyright" || containsStr error "copyright infringement" then
    "Ошибка: Видео недоступно из-за нарушения авторских прав."
  else
    "Ошибка загрузки: " ++ error

/-- The `download_video` / `download_audio` invocations of the engine (source
lines 173-226): both return `True` after the engine call, or let the
exception from `progress_hook` (or the engine) propagate.  The result carries
the success flag, the recorded filename and the emitted progress signals. -/
def download_call (cancelAt : Option Nat) (hooks : List HookData) :
    Except (String × List ProgSig) (Bool × Option String × List ProgSig) :=
  let r := runHooks cancelAt 0 none hooks
  match r.2.2 with
  | some e => .error (e, r.2.1)
  | none => .ok (true, r.1, r.2.1)

/-- Model of `DownloadRunnable.run` (source lines 139-156): the `signals.finished`
emission `(success, message, filename)`, paired with the progress signals
emitted along the way.  The `success = False` branch emitting
"Загрузка отменена" is kept exactly as in the source, although
`download_call` never returns `False`. -/
def runnable_run (cancelAt : Option Nat) (hooks : List HookData) :
    (Bool × String × String) × List ProgSig :=
  match download_call cancelAt hooks with
  | .ok (success, fname, evs) =>
    if success then ((true, "Загрузка завершена", fname.getD ""), evs)
    else ((false, "Загрузка отменена", ""), evs)
  | .error (e, evs) => ((false, get_user_friendly_error_message e, ""), evs)

/-! ## ResolutionProbe: `ResolutionWorker.run` (source lines 97-118) -/

/-- One entry of `info.get('formats', [])`: the two keys the probe reads.  A
missing key reads as `None` (`fmt.get`). -/
structure Format where
  height : Option Nat
  vcodec : Option String
  deriving DecidableEq, Repr

/-- The set comprehension filter at source lines 105-106:
`fmt.get('height') and fmt.get('vcodec') != 'none'` (Python truthiness makes
a height of `0` falsy). -/
def formatHeight (f : Format) : Option Nat :=
  match f.height with
  | some h => if h ≠ 0 ∧ f.vcodec ≠ some "none" then some h else none
  | none => none

/-- The distinct heights passing the filter (the underlying set of the
`resolutions` string set, which is keyed injectively by height). -/
def collectHeights (formats : List Format) : List Nat :=
  (formats.filterMap formatHeight).dedup

/-- The heights after the empty-set fallback to `{'720p'}` (source lines
107-108) and the descending sort by numeric value (source lines 110-112). -/
def resolutionNums (formats : List Format) : List Nat :=
  List.insertionSort (fun a b => a ≥ b)
    (if collectHeights formats = [] then [720] else collectHeights formats)

/-- The `sorted_resolutions` string list emitted via `resolutions_found`. -/
def sortedResolutions (formats : List Format) : List String :=
  (resolutionNums formats).map (fun h => toString h ++ "p")

/-! ## QueueOrchestrator: the queue slots of `VideoDownloaderUI`

State fields are `self.current_download`, `self.download_queue`,
`self.successful_downloads`, `self.failed_downloads` (source lines 523-526);
`emitted_summaries` records the `(successful, failed)` pairs displayed by
`show_download_summary`.  The `DownloadRunnable` created by `process_queue`
is identified with the queue entry it was built from, so `current_download`
stores a `Job`. -/

/-- One entry of `self.download_queue` (the dict appended at source lines
663-668). -/
structure Job where
  url : String
  mode : String
  resolution : Option String
  service : String
  deriving DecidableEq, Repr

/-- The orchestrator-relevant state of `VideoDownloaderUI`. -/
structure UIState where
  current_download : Option Job
  download_queue : List Job
  successful_downloads : List (String × String)
  failed_downloads : List (String × String)
  emitted_summaries : List (List (String × String) × List (String × String))
  deriving DecidableEq, Repr

/-- The state right after `__init__` (source lines 523-526). -/
def initState : UIState :=
  { current_download := none
    download_queue := []
    successful_downloads := []
    failed_downloads := []
    emitted_summaries := [] }

/-- The queue mutation of `add_to_queue` (source lines 663-668): append the
new job at the tail. -/
def enqueue (j : Job) (s : UIState) : UIState :=
  { s with download_queue := s.download_queue ++ [j] }

/-- Model of `process_queue` (source lines 699-727): when the queue is non-empty,
build a runnable from `download_queue[0]` (without popping it) and make it
the current download; when empty, only labels and controls change. -/
def process_queue (s : UIState) : UIState :=
  match s.download_queue with
  | [] => s
  | j :: _ => { s with current_download := some j }

/-- Model of `start_downloads` (source lines 689-697): message box and return on an
empty queue; otherwise start the queue only if nothing is running. -/
def start_downloads (s : UIState) : UIState :=
  if s.download_queue = [] then s
  else if s.current_download = none then process_queue s
  else s

/-- The outcome-recording prefix of `on_download_finished` (source lines
743-752): Python truthiness of `filename` is `filename ≠ ""`. -/
def record_outcome (s : UIState) (success : Bool) (message filename : String) :
    UIState :=
  if success then
    match s.current_download with
    | some c =>
      if filename = "" then s
      else { s with successful_downloads := s.successful_downloads ++ [(filename, c.url)] }
    | none => s
  else
    match s.current_download with
    | some c => { s with failed_downloads := s.failed_downloads ++ [(c.url, message)] }
    | none => s

/-- The pop at source lines 756-757: `if self.download_queue:
self.download_queue.pop(0)`. -/
def pop_head (s : UIState) : UIState :=
  if s.download_queue = [] then s
  else { s with download_queue := s.download_queue.tail }

/-- Model of `show_download_summary` (source lines 768-789): returns without effect
when both lists are empty, otherwise displays the summary and clears both
lists. -/
def show_download_summary (s : UIState) : UIState :=
  if s.successful_downloads = [] ∧ s.failed_downloads = [] then s
  else
    { s with
        emitted_summaries :=
          s.emitted_summaries ++ [(s.successful_downloads, s.failed_downloads)]
        successful_downloads := []
        failed_downloads := [] }

/-- The tail of `on_download_finished` (source lines 762-766): show the
summary when the queue has drained, otherwise start the next head. -/
def advance_queue (s : UIState) : UIState :=
  if s.download_queue = [] then show_download_summary s
  else process_queue s

/-- Model of `on_download_finished` (source lines 742-766): record the outcome, pop
the finished head, drop the current download, then advance. -/
def on_download_finished (s : UIState) (success : Bool) (message filename : String) :
    UIState :=
  advance_queue { pop_head (record_outcome s success message filename) with
                    current_download := none }

/-- Model of `clear_queue` (source lines 828-841): returns at once on an empty queue;
otherwise clears the whole `download_queue` when the user confirms. -/
def clear_queue (confirm : Bool) (s : UIState) : UIState :=
  if s.download_queue = [] then s
  else if confirm then { s with download_queue := [] } else s

/-- Model of `remove_selected` (source lines 843-848): delete the queue entry at the
selected row when one is selected (`currentRow() ≥ 0`); a row is always a
valid index because the list widget mirrors the queue one to one. -/
def remove_selected (row : Int) (s : UIState) : UIState :=
  if 0 ≤ row then
    { s with download_queue := s.download_queue.eraseIdx row.toNat }
  else s

/-- The operations of claim C1's quantification: enqueue, start, and a
terminal `finished` event from the worker. -/
inductive Op where
  | enqueue (j : Job)
  | start
  | finished (success : Bool) (message filename : String)

/-- Apply one operation to the state. -/
def applyOp (s : UIState) : Op → UIState
  | .enqueue j => enqueue j s
  | .start => start_downloads s
  | .finished b m f => on_download_finished s b m f

/-- Run a sequence of operations from a state. -/
def runOps (s : UIState) : List Op → UIState
  | [] => s
  | op :: ops => runOps (applyOp s op) ops

/-- Number of Active jobs: `current_download` is a single optional slot. -/
def numActive (s : UIState) : Nat :=
  match s.current_download with
  | some _ => 1
  | none => 0

/-- The queue-level invariant of claim C1 as a decidable check: at most one
job is Active, and the Active job is the current head of the queue. -/
def queueInvariant (s : UIState) : Bool :=
  (numActive s ≤ 1 : Bool) &&
    match s.current_download with
    | none => true
    | some j => s.download_queue.head? = some j

/-! ## Concrete fixtures used by witnesses and counterexamples -/

/-- The mixed fixture of the spec: heights 360, 720, 720, 1080 with mixed
video codecs including a `'none'` entry, plus a pure audio format. -/
def fixtureMixed : List Format :=
  [⟨some 360, some "avc1"⟩, ⟨some 720, some "none"⟩, ⟨some 720, some "vp9"⟩,
    ⟨some 1080, some "av01"⟩, ⟨none, some "mp4a"⟩]

/-- The YouTube entry of `URL_PATTERNS`, for the C9 witness. -/
def youtubeEntry : String × List String :=
  ("YouTube",
    [ "^https?://(?:www\\.)?youtube\\.com/watch\\?v=[\\w-]{11}(?:&\\S*)?$"
    , "^https?://youtu\\.be/[\\w-]{11}(?:\\?\\S*)?$"
    , "^https?://(?:www\\.)?youtube\\.com/shorts/[\\w-]{11}(?:\\?\\S*)?$"
    , "^https?://(?:www\\.)?youtube\\.com/embed/[\\w-]{11}(?:\\?\\S*)?$" ])

/-- A concrete job A for witnesses and counterexamples. -/
def jA : Job := ⟨"https://youtu.be/aaaaaaaaaaa", "video", some "720p", "YouTube"⟩

/-- A concrete job B for witnesses and counterexamples. -/
def jB : Job := ⟨"https://youtu.be/bbbbbbbbbbb", "video", some "720p", "YouTube"⟩

/-- A concrete job C for witnesses and counterexamples. -/
def jC : Job := ⟨"https://youtu.be/ccccccccccc", "video", some "480p", "YouTube"⟩

/-! ## Structural lemmas about the orchestrator steps -/

theorem record_outcome_queue (s : UIState) (b : Bool) (m f : String) :
    (record_outcome s b m f).download_queue = s.download_queue := by
  cases b <;> rcases h : s.current_download with _ | c <;>
    simp [record_outcome, h] <;> split <;> rfl

theorem record_outcome_current (s : UIState) (b : Bool) (m f : String) :
    (record_outcome s b m f).current_download = s.current_download := by
  cases b <;> rcases h : s.current_download with _ | c <;>
    simp [record_outcome, h] <;> split <;> simp [h]

theorem pop_head_queue (s : UIState) :
    (pop_head s).download_queue = s.download_queue.tail := by
  rcases hq : s.download_queue with _ | ⟨a, t⟩ <;> simp [pop_head, hq]

theorem pop_head_current (s : UIState) :
    (pop_head s).current_download = s.current_download := by
  unfold pop_head; split <;> rfl

theorem show_download_summary_queue (s : UIState) :
    (show_download_summary s).download_queue = s.download_queue := by
  unfold show_download_summary; split <;> rfl

theorem show_download_summary_current (s : UIState) :
    (show_download_summary s).current_download = s.current_download := by
  unfold show_download_summary; split <;> rfl

theorem process_queue_queue (s : UIState) :
    (process_queue s).download_queue = s.download_queue := by
  unfold process_queue; split <;> rfl

theorem advance_queue_queue (s : UIState) :
    (advance_queue s).download_queue = s.download_queue := by
  unfold advance_queue
  split
  · rw [show_download_summary_queue]
  · rw [process_queue_queue]

theorem advance_queue_current (s : UIState) (h : s.current_download = none) :
    (advance_queue s).current_download = s.download_queue.head? := by
  unfold advance_queue
  split
  · rename_i hq
    rw [show_download_summary_current, h, hq]; rfl
  · rename_i hq
    rcases ht : s.download_queue with _ | ⟨a, t⟩
    · exact absurd ht hq
    · have : process_queue s = { s with current_download := some a } := by
        unfold process_queue; rw [ht]
      rw [this, ht]; rfl

theorem on_finished_queue (s : UIState) (b : Bool) (m f : String) :
    (on_download_finished s b m f).download_queue = s.download_queue.tail := by
  unfold on_download_finished
  rw [advance_queue_queue]
  show (pop_head (record_outcome s b m f)).download_queue = _
  rw [pop_head_queue, record_outcome_queue]

theorem on_finished_current (s : UIState) (b : Bool) (m f : String) :
    (on_download_finished s b m f).current_download = s.download_queue.tail.head? := by
  unfold on_download_finished
  rw [advance_queue_current _ rfl]
  show (pop_head (record_outcome s b m f)).download_queue.head? = _
  rw [pop_head_queue, record_outcome_queue]

/-! ## The C1 invariant is inductive -/

theorem queueInvariant_iff (s : UIState) :
    queueInvariant s = true ↔
      ∀ j, s.current_download = some j → s.download_queue.head? = some j := by
  rcases h : s.current_download with _ | j <;>
    simp [queueInvariant, numActive, h]

theorem enqueue_inv (j : Job) (s : UIState) (h : queueInvariant s = true) :
    queueInvariant (enqueue j s) = true := by
  rw [queueInvariant_iff] at h ⊢
  intro j0 hj0
  simp only [enqueue] at hj0 ⊢
  have hh := h j0 hj0
  rcases hq : s.download_queue with _ | ⟨a, t⟩
  · rw [hq] at hh; simp at hh
  · rw [hq] at hh; simpa using hh

theorem process_queue_inv (s : UIState) (h : queueInvariant s = true) :
    queueInvariant (process_queue s) = true := by
  rcases hq : s.download_queue with _ | ⟨a, t⟩
  · have : process_queue s = s := by unfold process_queue; rw [hq]
    rw [this]; exact h
  · rw [queueInvariant_iff]
    intro j0 hj0
    have hps : process_queue s = { s with current_download := some a } := by
      unfold process_queue; rw [hq]
    rw [hps] at hj0 ⊢
    have hj0' : some a = some j0 := hj0
    injection hj0' with h3
    show s.download_queue.head? = some j0
    rw [hq, ← h3]; rfl

theorem start_downloads_inv (s : UIState) (h : queueInvariant s = true) :
    queueInvariant (start_downloads s) = true := by
  unfold start_downloads
  split
  · exact h
  · split
    · exact process_queue_inv s h
    · exact h

theorem on_finished_inv (s : UIState) (b : Bool) (m f : String) :
    queueInvariant (on_download_finished s b m f) = true := by
  rw [queueInvariant_iff]
  intro j0 hj0
  rw [on_finished_current] at hj0
  rw [on_finished_queue]
  exact hj0

theorem applyOp_inv (s : UIState) (op : Op) (h : queueInvariant s = true) :
    queueInvariant (applyOp s op) = true := by
  cases op with
  | enqueue j => exact enqueue_inv j s h
  | start => exact start_downloads_inv s h
  | finished b m f => exact on_finished_inv s b m f

theorem runOps_inv (ops : List Op) :
    ∀ s : UIState, queueInvariant s = true → queueInvariant (runOps s ops) = true := by
  induction ops with
  | nil => intro s h; exact h
  | cons op ops ih => intro s h; exact ih (applyOp s op) (applyOp_inv s op h)

/-- C1: for every sequence of enqueue, start, and terminal-event operations
applied to the queue orchestrator, at most one job is Active at any observed
instant (`numActive ≤ 1`), and the Active job is always the current head of
the queue (`current_download`, when set, holds `download_queue.head?`). -/
theorem claim_c1_active_is_head (ops : List Op) :
    queueInvariant (runOps initState ops) = true :=
  runOps_inv ops initState rfl

/-! ## C2: FIFO order -/

theorem runOps_scenario_start (A B C : Job) :
    runOps initState [.enqueue A, .enqueue B, .enqueue C, .start]
      = { current_download := some A
          download_queue := [A, B, C]
          successful_downloads := []
          failed_downloads := []
          emitted_summaries := [] } := by
  simp [runOps, applyOp, enqueue, start_downloads, process_queue, initState]

/-- C2: jobs run in FIFO order: after enqueueing A, B, C in that order,
starting, and A reaching a terminal event, B is the Active job and C is not;
moreover no job begins while another is Active (`start_downloads` and
`enqueue` never change `current_download` when it is set). -/
theorem claim_c2_fifo (A B C : Job) (m fn : String) (hBC : B ≠ C) :
    ((runOps initState [.enqueue A, .enqueue B, .enqueue C, .start,
        .finished true m fn]).current_download = some B
      ∧ (runOps initState [.enqueue A, .enqueue B, .enqueue C, .start,
        .finished true m fn]).download_queue = [B, C]
      ∧ (runOps initState [.enqueue A, .enqueue B, .enqueue C, .start,
        .finished true m fn]).current_download ≠ some C)
    ∧ (∀ (s : UIState) (j : Job), s.current_download = some j →
        (start_downloads s).current_download = some j
          ∧ ∀ j2, (enqueue j2 s).current_download = some j) := by
  have hrun : runOps initState [.enqueue A, .enqueue B, .enqueue C, .start,
      .finished true m fn]
      = on_download_finished (runOps initState [.enqueue A, .enqueue B, .enqueue C, .start])
          true m fn := rfl
  rw [hrun, runOps_scenario_start]
  refine ⟨⟨?_, ?_, ?_⟩, ?_⟩
  · rw [on_finished_current]; rfl
  · rw [on_finished_queue]; rfl
  · rw [on_finished_current]
    simpa using hBC
  · intro s j hj
    constructor
    · unfold start_downloads
      split
      · exact hj
      · split
        · rename_i hnone
          rw [hj] at hnone; exact absurd hnone (by simp)
        · exact hj
    · intro j2
      simpa [enqueue] using hj

/-! ## C4: ResolutionProbe -/

theorem formatHeight_eq_some (f : Format) (h : Nat) :
    formatHeight f = some h ↔
      f.height = some h ∧ h ≠ 0 ∧ f.vcodec ≠ some "none" := by
  rcases hh : f.height with _ | k
  · simp [formatHeight, hh]
  · by_cases hk : k ≠ 0 ∧ f.vcodec ≠ some "none"
    · simp only [formatHeight, hh, if_pos hk, Option.some.injEq]
      constructor
      · rintro rfl
        exact ⟨rfl, hk.1, hk.2⟩
      · rintro ⟨h1, _, _⟩
        exact h1
    · simp only [formatHeight, hh, if_neg hk]
      constructor
      · intro hFalse; exact absurd hFalse (by simp)
      · rintro ⟨h1, hz, hv⟩
        exfalso
        apply hk
        injection h1 with h3
        subst h3
        exact ⟨hz, hv⟩

theorem mem_collectHeights (formats : List Format) (h : Nat) :
    h ∈ collectHeights formats ↔
      ∃ f ∈ formats, f.height = some h ∧ h ≠ 0 ∧ f.vcodec ≠ some "none" := by
  unfold collectHeights
  rw [List.mem_dedup, List.mem_filterMap]
  constructor
  · rintro ⟨f, hf, hfh⟩; exact ⟨f, hf, (formatHeight_eq_some f h).mp hfh⟩
  · rintro ⟨f, hf, hprops⟩; exact ⟨f, hf, (formatHeight_eq_some f h).mpr hprops⟩

/-- C4: the resolution probe returns exactly the distinct heights of
video-codec-bearing formats sorted descending (the mixed fixture yields
`["1080p", "720p", "360p"]`), falls back to `["720p"]` when no video-bearing
format exists, and never returns an empty list. -/
theorem claim_c4_resolution_probe :
    (sortedResolutions fixtureMixed = ["1080p", "720p", "360p"])
    ∧ (∀ formats : List Format, sortedResolutions formats ≠ [])
    ∧ (∀ formats : List Format, (∀ f ∈ formats, f.vcodec = some "none") →
        sortedResolutions formats = ["720p"])
    ∧ (∀ formats : List Format,
        List.Sorted (fun a b : Nat => a ≥ b) (resolutionNums formats)
        ∧ (resolutionNums formats).Nodup
        ∧ (collectHeights formats ≠ [] → ∀ h : Nat,
            h ∈ resolutionNums formats ↔
              ∃ f ∈ formats, f.height = some h ∧ h ≠ 0 ∧ f.vcodec ≠ some "none")) := by
  refine ⟨by decide, ?_, ?_, ?_⟩
  · intro formats hcontr
    have hL : (if collectHeights formats = [] then [720]
        else collectHeights formats) ≠ [] := by
      split
      · simp
      · rename_i hne; exact hne
    apply hL
    have h2 : resolutionNums formats = [] := by
      rcases hr : resolutionNums formats with _ | ⟨x, xs⟩
      · rfl
      · unfold sortedResolutions at hcontr
        rw [hr] at hcontr; exact absurd hcontr (by simp)
    have h3 := congrArg List.length h2
    unfold resolutionNums at h3
    rw [List.length_insertionSort] at h3
    exact List.length_eq_zero.mp h3
  · intro formats hnone
    have hc : collectHeights formats = [] := by
      unfold collectHeights
      have hfm : formats.filterMap formatHeight = [] := by
        rw [List.filterMap_eq_nil_iff]
        intro f hf
        rcases hh : f.height with _ | k
        · simp [formatHeight, hh]
        · simp [formatHeight, hh, hnone f hf]
      rw [hfm]; rfl
    unfold sortedResolutions resolutionNums
    rw [hc]
    decide
  · intro formats
    refine ⟨List.sorted_insertionSort _ _, ?_, ?_⟩
    · unfold resolutionNums
      rw [(List.perm_insertionSort _ _).nodup_iff]
      split
      · decide
      · exact List.nodup_dedup _
    · intro hne h
      unfold resolutionNums
      rw [List.mem_insertionSort _, if_neg hne]
      exact mem_collectHeights formats h

/-- Witness for C4 at concrete fixtures. -/
theorem claim_c4_resolution_probe_witness :
    sortedResolutions [⟨some 360, some "none"⟩, ⟨some 1080, some "none"⟩] = ["720p"]
      ∧ sortedResolutions [] ≠ [] :=
  ⟨claim_c4_resolution_probe.2.2.1 [⟨some 360, some "none"⟩, ⟨some 1080, some "none"⟩]
      (by decide),
    claim_c4_resolution_probe.2.1 []⟩

/-! ## C7: progress percentage -/

/-- C7 counterexample: a downloading callback with `downloaded_bytes = 150`
and known total `100` emits the determinate percentage `150`, which does not
lie within `[0, 100]` — the hook computes `downloaded/total × 100` without
clamping (this arises when `total_bytes_estimate` underestimates). -/
theorem claim_c7_counterexample :
    progress_hook false none ⟨"downloading", 150, 100, 0, ""⟩
        = .ok (none, [⟨.downloading, 150⟩])
      ∧ ¬((150 : ℚ) ≤ 100) := by
  constructor
  · simp [progress_hook, effTotal]
  · norm_num

/-- C7 (amended): when the total is unknown the hook always emits the
sentinel `-1` (which is below `[0, 100)`); when the total is known it emits
`downloaded/total × 100`, which is always nonnegative and is at most `100`
whenever `downloaded ≤ total` (the code does not clamp larger values). -/
theorem claim_c7_progress_percent (d : HookData) (fname : Option String)
    (hst : d.status = "downloading") :
    (effTotal d = 0 →
      progress_hook false fname d = .ok (fname, [⟨.indeterminate, -1⟩])
        ∧ ((-1 : ℚ) < 0))
    ∧ (effTotal d ≠ 0 →
      progress_hook false fname d
          = .ok (fname, [⟨.downloading,
              (d.downloaded_bytes : ℚ) / (effTotal d : ℚ) * 100⟩])
        ∧ 0 ≤ (d.downloaded_bytes : ℚ) / (effTotal d : ℚ) * 100
        ∧ (d.downloaded_bytes ≤ effTotal d →
            (d.downloaded_bytes : ℚ) / (effTotal d : ℚ) * 100 ≤ 100)) := by
  constructor
  · intro h0
    exact ⟨by simp [progress_hook, hst, h0], by norm_num⟩
  · intro hne
    refine ⟨by simp [progress_hook, hst, hne], ?_, ?_⟩
    · positivity
    · intro hle
      have hpos : (0 : ℚ) < (effTotal d : ℚ) := by
        exact_mod_cast Nat.pos_of_ne_zero hne
      have h1 : (d.downloaded_bytes : ℚ) / (effTotal d : ℚ) ≤ 1 := by
        rw [div_le_one hpos]
        exact_mod_cast hle
      calc (d.downloaded_bytes : ℚ) / (effTotal d : ℚ) * 100
          ≤ 1 * 100 := mul_le_mul_of_nonneg_right h1 (by norm_num)
        _ = 100 := by norm_num

/-- Witness for C7 at concrete callbacks. -/
theorem claim_c7_progress_percent_witness :
    progress_hook false none ⟨"downloading", 0, 0, 0, ""⟩
        = .ok (none, [⟨.indeterminate, -1⟩])
      ∧ ((50 : Nat) : ℚ) / ((effTotal ⟨"downloading", 50, 100, 0, ""⟩ : Nat) : ℚ) * 100 ≤ 100 :=
  ⟨((claim_c7_progress_percent ⟨"downloading", 0, 0, 0, ""⟩ none rfl).1 rfl).1,
    ((claim_c7_progress_percent ⟨"downloading", 50, 100, 0, ""⟩ none rfl).2
        (by decide)).2.2 (by decide)⟩

/-! ## C8: empty and whitespace-only URLs -/

/-- C8 counterexample: the whitespace-only URL `" "` is rejected with the
scheme message, not the empty-URL message — `is_valid_video_url` tests
`not url`, which is false for a non-empty whitespace string. -/
theorem claim_c8_counterexample :
    is_valid_video_url (fun _ _ => false) " " = (false, badSchemeMsg)
      ∧ badSchemeMsg ≠ emptyUrlMsg := by
  exact ⟨rfl, by decide⟩

theorem schemeOk_ws (c : Char) (cs : List Char) (hc : isWs c = true) :
    schemeOk ⟨c :: cs⟩ = false := by
  have hc2 := hc
  simp only [isWs, Bool.or_eq_true, decide_eq_true_eq] at hc2
  rcases hc2 with ((((rfl | rfl) | rfl) | rfl) | rfl) | rfl <;> rfl

/-- C8 (amended): the classifier returns the empty-URL error exactly for the
empty string; a non-empty whitespace-only URL is rejected with the scheme
error instead.  The call sites (`paste_url`, `add_to_queue`) strip input
before classifying, which maps every whitespace-only input to the empty
string and hence to the empty-URL error. -/
theorem claim_c8_empty_whitespace (matchb : String → String → Bool) (url : String) :
    (url = "" → is_valid_video_url matchb url = (false, emptyUrlMsg))
    ∧ (url ≠ "" → url.data.all isWs = true →
        is_valid_video_url matchb url = (false, badSchemeMsg))
    ∧ (url.data.all isWs = true → stripStr url = "") := by
  refine ⟨?_, ?_, ?_⟩
  · rintro rfl; rfl
  · intro hne hws
    rcases hd : url.data with _ | ⟨c, cs⟩
    · exfalso
      apply hne
      have h2 : url = ⟨url.data⟩ := rfl
      rw [h2, hd]
    · have hurl : url = ⟨c :: cs⟩ := by rw [← hd]
      have hc : isWs c = true := by
        rw [hd] at hws
        simpa using (List.all_eq_true.mp hws c (by simp))
      have hsch : schemeOk url = false := by
        rw [hurl]; exact schemeOk_ws c cs hc
      simp [is_valid_video_url, hne, hsch]
  · intro hws
    unfold stripStr
    have h1 : url.data.dropWhile isWs = [] := by
      rw [List.dropWhile_eq_nil_iff]
      intro x hx
      simpa using List.all_eq_true.mp hws x hx
    rw [h1]
    rfl

/-- Witness for C8 at concrete URLs. -/
theorem claim_c8_empty_whitespace_witness :
    is_valid_video_url (fun _ _ => false) "" = (false, emptyUrlMsg)
      ∧ is_valid_video_url (fun _ _ => false) "  " = (false, badSchemeMsg)
      ∧ stripStr "  " = "" :=
  ⟨(claim_c8_empty_whitespace (fun _ _ => false) "").1 rfl,
    (claim_c8_empty_whitespace (fun _ _ => false) "  ").2.1 (by decide) (by decide),
    (claim_c8_empty_whitespace (fun _ _ => false) "  ").2.2 (by decide)⟩

/-! ## C9: fallthrough classification for scheme-valid non-matching URLs -/

/-- C9: for a URL with an `http(s)` scheme that matches none of the patterns,
the classifier reports the malformed-for-service message for the first
service whose name occurs case-insensitively in the URL, and the generic
unsupported-service message when no service name occurs. -/
theorem claim_c9_fallback (matchb : String → String → Bool) (url : String)
    (hscheme : schemeOk url = true)
    (hnomatch : ∀ sp ∈ URL_PATTERNS, ∀ p ∈ sp.2, matchb p url = false) :
    (URL_PATTERNS.find? (fun sp => serviceContains url sp.1) = none →
      is_valid_video_url matchb url = (false, unsupportedMsg))
    ∧ (∀ sp, URL_PATTERNS.find? (fun sp2 => serviceContains url sp2.1) = some sp →
      is_valid_video_url matchb url = (false, malformedMsg sp.1)) := by
  have hne : url ≠ "" := by
    intro h; subst h; exact absurd hscheme (by decide)
  have hany : URL_PATTERNS.any (fun sp => sp.2.any (fun p => matchb p url)) = false := by
    rw [List.any_eq_false]
    intro sp hsp
    simp only [Bool.not_eq_true]
    rw [List.any_eq_false]
    intro p hp
    simp [hnomatch sp hsp p hp]
  constructor
  · intro hfind
    simp [is_valid_video_url, hne, hscheme, hany, hfind]
  · intro sp hfind
    simp [is_valid_video_url, hne, hscheme, hany, hfind]

/-- Witness for C9 at concrete URLs and the always-false pattern matcher. -/
theorem claim_c9_fallback_witness :
    is_valid_video_url (fun _ _ => false) "https://foo.bar/baz" = (false, unsupportedMsg)
      ∧ is_valid_video_url (fun _ _ => false) "https://youtube.com/bad"
          = (false, malformedMsg "YouTube") :=
  ⟨(claim_c9_fallback (fun _ _ => false) "https://foo.bar/baz" (by decide)
      (by intro sp _ p _; rfl)).1 (by decide),
    (claim_c9_fallback (fun _ _ => false) "https://youtube.com/bad" (by decide)
      (by intro sp _ p _; rfl)).2 youtubeEntry (by decide)⟩

/-! ## C3: cancellation path -/

/-- C3 as stated is false: a cancelled job's terminal signal is produced by
the generic exception handler of `run` — the raised message gets the failure
prefix "Ошибка загрузки: " from `get_user_friendly_error_message`, exactly
like any failure — and the dedicated cancelled branch of `run` (which would
emit the bare "Загрузка отменена") is never taken. -/
theorem claim_c3_counterexample :
    (runnable_run (some 0) [⟨"downloading", 10, 100, 0, ""⟩]).1
        = (false, get_user_friendly_error_message cancelExcMsg, "")
      ∧ get_user_friendly_error_message cancelExcMsg
          = "Ошибка загрузки: Загрузка отменена пользователем"
      ∧ get_user_friendly_error_message cancelExcMsg ≠ cancelExcMsg
      ∧ (runnable_run (some 0) [⟨"downloading", 10, 100, 0, ""⟩]).1.2.1
          ≠ "Загрузка отменена" :=
  ⟨by decide, by decide, by decide, by decide⟩

/-- C3 (amended): when the cancellation flag is set before a progress tick,
the hook raises "Загрузка отменена пользователем"; `run`'s generic handler
emits the terminal signal
`(False, "Ошибка загрузки: Загрузка отменена пользователем", "")`; the
orchestrator records the job in the failure list with that wrapped message
and automatically starts the next queued job. -/
theorem claim_c3_cancellation (s : UIState) (A B : Job) (t : List Job)
    (d : HookData) (hooks : List HookData)
    (hcur : s.current_download = some A)
    (hq : s.download_queue = A :: B :: t) :
    (runnable_run (some 0) (d :: hooks)).1
        = (false, "Ошибка загрузки: Загрузка отменена пользователем", "")
    ∧ (on_download_finished s false
          "Ошибка загрузки: Загрузка отменена пользователем" "").failed_downloads
        = s.failed_downloads
            ++ [(A.url, "Ошибка загрузки: Загрузка отменена пользователем")]
    ∧ (on_download_finished s false
          "Ошибка загрузки: Загрузка отменена пользователем" "").current_download
        = some B := by
  refine ⟨?_, ?_, ?_⟩
  · simp [runnable_run, download_call, runHooks, progress_hook]
    decide
  · simp [on_download_finished, record_outcome, hcur, pop_head, advance_queue,
      process_queue, hq, show_download_summary]
  · rw [on_finished_current, hq]
    rfl

/-- Witness for C3 at a concrete two-job state. -/
theorem claim_c3_cancellation_witness :
    (on_download_finished
        { current_download := some ⟨"https://youtu.be/aaaaaaaaaaa", "video", some "720p", "YouTube"⟩
          download_queue :=
            [⟨"https://youtu.be/aaaaaaaaaaa", "video", some "720p", "YouTube"⟩,
              ⟨"https://youtu.be/bbbbbbbbbbb", "video", some "720p", "YouTube"⟩]
          successful_downloads := []
          failed_downloads := []
          emitted_summaries := [] }
        false "Ошибка загрузки: Загрузка отменена пользователем" "").current_download
      = some ⟨"https://youtu.be/bbbbbbbbbbb", "video", some "720p", "YouTube"⟩ :=
  (claim_c3_cancellation _ _ _ [] ⟨"downloading", 0, 0, 0, ""⟩ [] rfl rfl).2.2

/-! ## C5: remove_selected -/

/-- C5 counterexample: with job A Active at the queue head, `remove_selected`
at row 0 deletes the Active job's queue entry — nothing restricts removal to
non-Active jobs. -/
theorem claim_c5_counterexample :
    (runOps initState [.enqueue jA, .enqueue jB, .start]).current_download = some jA
      ∧ (runOps initState [.enqueue jA, .enqueue jB, .start]).download_queue = [jA, jB]
      ∧ (remove_selected 0
          (runOps initState [.enqueue jA, .enqueue jB, .start])).download_queue = [jB]
      ∧ jA ∉ (remove_selected 0
          (runOps initState [.enqueue jA, .enqueue jB, .start])).download_queue
      ∧ (remove_selected 0
          (runOps initState [.enqueue jA, .enqueue jB, .start])).current_download
          = some jA := by
  decide

/-- C5 (amended): `remove_selected` deletes the entry at the selected row,
including the Active head at row 0; for rows ≥ 1 the head entry (the Active
job's) is untouched, `current_download` is never changed, and the remaining
entries keep their relative order (the new queue is a sublist of the old). -/
theorem claim_c5_remove_selected (s : UIState) (i : Int) (h1 : 1 ≤ i) :
    (remove_selected i s).current_download = s.current_download
      ∧ (remove_selected i s).download_queue.head? = s.download_queue.head?
      ∧ ((remove_selected i s).download_queue).Sublist s.download_queue := by
  have h0 : (0 : Int) ≤ i := le_trans (by norm_num) h1
  unfold remove_selected
  rw [if_pos h0]
  refine ⟨rfl, ?_, List.eraseIdx_sublist _ _⟩
  have hn : ∃ n : Nat, i.toNat = n + 1 := by
    refine ⟨i.toNat - 1, ?_⟩
    omega
  rcases hn with ⟨n, hn⟩
  rw [hn]
  rcases hq : s.download_queue with _ | ⟨a, t⟩
  · rfl
  · rfl

/-- Witness for C5 at row 1 of a concrete two-job state. -/
theorem claim_c5_remove_selected_witness :
    (remove_selected 1
        (runOps initState [.enqueue jA, .enqueue jB, .start])).download_queue.head?
      = (runOps initState [.enqueue jA, .enqueue jB, .start]).download_queue.head? :=
  (claim_c5_remove_selected (runOps initState [.enqueue jA, .enqueue jB, .start]) 1
      (by decide)).2.1

/-! ## C6: clear_queue -/

/-- C6 counterexample: with job A Active and the queued section empty (the
queue holds only the Active head's entry), a confirmed `clear_queue` changes
the state — it deletes the Active job's queue entry — so it is not a no-op. -/
theorem claim_c6_counterexample :
    (runOps initState [.enqueue jA, .start]).current_download = some jA
      ∧ (runOps initState [.enqueue jA, .start]).download_queue.tail = []
      ∧ clear_queue true (runOps initState [.enqueue jA, .start])
          ≠ runOps initState [.enqueue jA, .start] := by
  decide

/-- C6 (amended): a confirmed `clear_queue` empties the whole download queue
— including the Active head's entry, so with an Active job it is not a no-op
even when the queued section is empty.  It never touches `current_download`,
the running job still reaches its terminal event and its outcome is still
recorded into the emitted summary, and it is a no-op exactly when the whole
queue is already empty. -/
theorem claim_c6_clear_queue (s : UIState) (confirm : Bool) (c : Job) (m : String) :
    (s.download_queue = [] → clear_queue confirm s = s)
    ∧ (clear_queue confirm s).current_download = s.current_download
    ∧ (s.download_queue ≠ [] → (clear_queue true s).download_queue = [])
    ∧ (s.current_download = some c → s.download_queue ≠ [] →
        (on_download_finished (clear_queue true s) false m "").emitted_summaries
          = s.emitted_summaries
              ++ [(s.successful_downloads, s.failed_downloads ++ [(c.url, m)])]) := by
  refine ⟨?_, ?_, ?_, ?_⟩
  · intro h
    unfold clear_queue
    rw [if_pos h]
  · unfold clear_queue
    split
    · rfl
    · split <;> rfl
  · intro h
    unfold clear_queue
    rw [if_neg h, if_pos rfl]
  · intro hc hq
    have hclear : clear_queue true s = { s with download_queue := [] } := by
      unfold clear_queue
      rw [if_neg hq, if_pos rfl]
    rw [hclear]
    simp [on_download_finished, record_outcome, hc, pop_head, advance_queue,
      show_download_summary]

/-- Witness for C6: no-op on the empty initial state, and the outcome of the
Active job is still recorded after the queue was cleared underneath it. -/
theorem claim_c6_clear_queue_witness :
    clear_queue true initState = initState
      ∧ (on_download_finished (clear_queue true (runOps initState [.enqueue jA, .start]))
            false "err" "").emitted_summaries
          = (runOps initState [.enqueue jA, .start]).emitted_summaries
              ++ [((runOps initState [.enqueue jA, .start]).successful_downloads,
                  (runOps initState [.enqueue jA, .start]).failed_downloads
                    ++ [(jA.url, "err")])] :=
  ⟨(claim_c6_clear_queue initState true jA "err").1 rfl,
    (claim_c6_clear_queue (runOps initState [.enqueue jA, .start]) true jA "err").2.2.2
      (by decide) (by decide)⟩

/-! ## C10: successful finish with empty filename -/

theorem runHooks_none_no_finished (hooks : List HookData) :
    ∀ (i : Nat) (f : Option String), (∀ d ∈ hooks, d.status ≠ "finished") →
      (runHooks none i f hooks).1 = f ∧ (runHooks none i f hooks).2.2 = none := by
  induction hooks with
  | nil => intro i f _; exact ⟨rfl, rfl⟩
  | cons d ds ih =>
    intro i f h
    have hd : d.status ≠ "finished" := h d (by simp)
    have hds : ∀ x ∈ ds, x.status ≠ "finished" := fun x hx => h x (by simp [hx])
    have hph : ∃ evs, progress_hook false f d = .ok (f, evs) := by
      by_cases h1 : d.status = "downloading"
      · by_cases h2 : effTotal d = 0
        · refine ⟨[⟨.indeterminate, -1⟩], ?_⟩
          simp [progress_hook, h1, h2]
        · refine ⟨[⟨.downloading, (d.downloaded_bytes : ℚ) / (effTotal d : ℚ) * 100⟩], ?_⟩
          simp [progress_hook, h1, h2]
      · refine ⟨[], ?_⟩
        simp [progress_hook, h1, hd]
    rcases hph with ⟨evs, hph⟩
    simp only [runHooks, hph]
    exact ⟨(ih (i + 1) f hds).1, (ih (i + 1) f hds).2⟩

/-- C10: a successful finish whose reported filename is empty is recorded in
neither the success list nor the failure list — the recording step leaves the
state unchanged — and the executor reports an empty filename exactly when no
'finished' progress event ever arrived. -/
theorem claim_c10_empty_filename (s : UIState) (m : String) (hooks : List HookData) :
    record_outcome s true m "" = s
    ∧ ((∀ d ∈ hooks, d.status ≠ "finished") →
        (runnable_run none hooks).1 = (true, "Загрузка завершена", "")) := by
  constructor
  · rcases hc : s.current_download with _ | c <;> simp [record_outcome, hc]
  · intro hnf
    have h := runHooks_none_no_finished hooks 0 none hnf
    rcases hr : runHooks none 0 none hooks with ⟨f1, evs1, err1⟩
    rw [hr] at h
    simp only at h
    rcases h with ⟨hf1, herr⟩
    subst hf1
    subst herr
    simp [runnable_run, download_call, hr]

/-- Witness for C10: the recording step at a live state, and a run whose
engine script contains no 'finished' event. -/
theorem claim_c10_empty_filename_witness :
    record_outcome (runOps initState [.enqueue jA, .start]) true "Загрузка завершена" ""
        = runOps initState [.enqueue jA, .start]
      ∧ (runnable_run none [⟨"downloading", 10, 0, 0, ""⟩]).1
          = (true, "Загрузка завершена", "") :=
  ⟨(claim_c10_empty_filename (runOps initState [.enqueue jA, .start])
      "Загрузка завершена" []).1,
    (claim_c10_empty_filename initState "x" [⟨"downloading", 10, 0, 0, ""⟩]).2
      (by decide)⟩

/-- Witness for C2 at concrete jobs. -/
theorem claim_c2_fifo_witness :
    (runOps initState [.enqueue jA, .enqueue jB, .enqueue jC, .start,
        .finished true "Загрузка завершена" "a.mp4"]).current_download = some jB
      ∧ (runOps initState [.enqueue jA, .enqueue jB, .enqueue jC, .start,
        .finished true "Загрузка завершена" "a.mp4"]).current_download ≠ some jC :=
  ⟨(claim_c2_fifo jA jB jC "Загрузка завершена" "a.mp4" (by decide)).1.1,
    (claim_c2_fifo jA jB jC "Загрузка завершена" "a.mp4" (by decide)).1.2.2⟩

end VideoDloader
